import Mathlib

/-
Shallow embedding of the licensed-content acquisition pipeline of
tavily-mcp-licensed (src/src/index.ts: class LicenseService and
licensedFetchText, with data shapes from src/src/types.ts).

Network I/O is modelled by oracle arguments: each network call a code path
performs consumes one `Except String _` value (error = thrown transport /
remote / timeout error, ok = the parsed response).  JavaScript `number`
fields that are only passed through verbatim are modelled as `Int`;
timestamps in milliseconds as `Int`; token counts as `Nat`.
Every operation returns, besides its result, the number of network
requests it issued, so that "no network call" claims are statable.
-/

namespace TavilyLicensed

/-- The `action` field of LicenseInfo: 'allow' | 'deny' | 'unknown'. -/
inductive Action where
  | allow
  | deny
  | unknown
deriving DecidableEq

/-- 'infer' | 'embed' | 'tune' | 'train' (types.ts LicenseStage). -/
inductive LicenseStage where
  | infer
  | embed
  | tune
  | train
deriving DecidableEq

/-- 'private' | 'public' (types.ts Distribution; `private` is a Lean keyword). -/
inductive Distribution where
  | privateDist
  | publicDist
deriving DecidableEq

/-- types.ts LicenseInfo.  Optional fields are `Option`; absent = `none`. -/
structure LicenseInfo where
  url : String
  license_found : Bool
  action : Action
  price : Option Int := none
  payto : Option String := none
  license_version_id : Option Int := none
  license_sig : Option String := none
  license_type : Option String := none
  error : Option String := none
deriving DecidableEq

/-- One element of the ledger lookup response array
(`{license_type, opt_in_status, rate_per_token, wallet_id, id}`, §6 of the
external interface).  All fields may be absent in the JSON. -/
structure LicenseRecord where
  license_type : Option String := none
  opt_in_status : Option String := none
  rate_per_token : Option Int := none
  wallet_id : Option String := none
  id : Option Int := none
deriving DecidableEq

/-- `response.data` of the lookup: the code handles both an array and a bare
object (`Array.isArray(response.data) ? response.data : [response.data]`). -/
inductive LookupData where
  | arr (records : List LicenseRecord)
  | single (record : LicenseRecord)
deriving DecidableEq

/-- The `licenseArray` the code builds from `response.data`. -/
def LookupData.toRecords : LookupData → List LicenseRecord
  | .arr rs => rs
  | .single r => [r]

/-- types.ts LicenseTrackingSummary. -/
structure LicenseTrackingSummary where
  total_urls : Nat
  licensed_content : Nat
  unlicensed_content : Nat
  denied_content : Nat
  total_tokens : Nat
  tracking_enabled : Bool
  errors : Nat
deriving DecidableEq

/-- types.ts LicenseServiceConfig (the immutable configuration snapshot). -/
structure LicenseServiceConfig where
  apiUrl : String
  apiKey : Option String := none
  licenseCheckTimeout : Nat
  licenseAcquireTimeout : Nat
  usageLogTimeout : Nat
  enableTracking : Bool
  enableCache : Bool
  cacheTTL : Nat
deriving DecidableEq

/-- JavaScript truthiness of `this.config.apiKey`: present and non-empty. -/
def LicenseServiceConfig.hasApiKey (c : LicenseServiceConfig) : Bool :=
  match c.apiKey with
  | some s => !(s == "")
  | none => false

/-- One entry of `licenseCache : Map<string, {license, expires}>`. -/
structure CacheEntry where
  license : LicenseInfo
  expires : Int
deriving DecidableEq

/-- The mutable state of a LicenseService instance: the license cache
(association list standing for the insertion-ordered `Map`) and the session
summary. -/
structure ServiceState where
  config : LicenseServiceConfig
  licenseCache : List (String × CacheEntry)
  sessionSummary : LicenseTrackingSummary
deriving DecidableEq

/-- `Map.get` on the license cache. -/
def cacheGet (cache : List (String × CacheEntry)) (url : String) :
    Option CacheEntry :=
  (cache.find? (fun p => p.1 == url)).map (·.2)

/-- `Map.set` on the license cache: replaces any entry for the key. -/
def cacheSet (cache : List (String × CacheEntry)) (url : String)
    (e : CacheEntry) : List (String × CacheEntry) :=
  (url, e) :: cache.filter (fun p => !(p.1 == url))

/-- The degraded `{url, license_found: false, action: 'unknown'}` value. -/
def emptyLicense (url : String) : LicenseInfo :=
  { url := url, license_found := false, action := .unknown }

/-- Result of one `checkLicense` call: the returned LicenseInfo, the state
after the call, and how many ledger lookup requests the call issued. -/
structure CheckOutcome where
  license : LicenseInfo
  state : ServiceState
  lookups : Nat
deriving DecidableEq

/-- The cache consultation at the top of `checkLicense`: a live hit iff
caching is enabled, the URL is present, and `expires > Date.now()`. -/
def cacheHit (st : ServiceState) (now : Int) (url : String) :
    Option LicenseInfo :=
  if st.config.enableCache then
    match cacheGet st.licenseCache url with
    | some cached => if cached.expires > now then some cached.license else none
    | none => none
  else none

/-- The session-summary update of a successful, non-cached, non-empty check:
`total_urls++` and exactly one of denied/licensed/unlicensed. -/
def bumpSummary (s : LicenseTrackingSummary) (license : LicenseInfo) :
    LicenseTrackingSummary :=
  let s1 := { s with total_urls := s.total_urls + 1 }
  if license.license_found then
    if license.action = .deny then
      { s1 with denied_content := s1.denied_content + 1 }
    else
      { s1 with licensed_content := s1.licensed_content + 1 }
  else
    { s1 with unlicensed_content := s1.unlicensed_content + 1 }

/-- The body of `checkLicense`'s `try` block on a successful ledger response:
zero records return the degraded value (no cache write, no counters);
otherwise prefer the 'ai-license' record, else the first, derive found/action
from `opt_in_status`, cache on `enableCache`, and update the counters. -/
def ledgerLookupOk (st : ServiceState) (now : Int) (url : String)
    (data : LookupData) : CheckOutcome :=
  match data.toRecords with
  | [] => ⟨emptyLicense url, st, 1⟩
  | r :: rs =>
    let licenseData :=
      ((r :: rs).find? (fun l => l.license_type == some "ai-license")).getD r
    let optStatus := licenseData.opt_in_status
    let found := (optStatus == some "opt-in") || (optStatus == some "opt-out")
    let action : Action :=
      if optStatus = some "opt-in" then .allow
      else if optStatus = some "opt-out" then .deny
      else .unknown
    let license : LicenseInfo :=
      { url := url
        license_found := found
        action := action
        price := licenseData.rate_per_token
        payto := licenseData.wallet_id
        license_version_id := licenseData.id
        license_sig := none
        license_type := licenseData.license_type }
    let cache1 :=
      if st.config.enableCache then
        cacheSet st.licenseCache url
          ⟨license, now + (st.config.cacheTTL : Int) * 1000⟩
      else st.licenseCache
    ⟨license,
     { st with licenseCache := cache1
               sessionSummary := bumpSummary st.sessionSummary license }, 1⟩

/-- `checkLicense`'s `catch` block: degraded value with the error message,
`errors++`, no cache write, never throws. -/
def ledgerLookupErr (st : ServiceState) (url : String) (msg : String) :
    CheckOutcome :=
  ⟨{ emptyLicense url with error := some msg },
   { st with sessionSummary :=
       { st.sessionSummary with errors := st.sessionSummary.errors + 1 } }, 1⟩

/-- `checkLicense(url)` (index.ts lines 1169-1260).  `net` is the outcome of
the single ledger lookup the call may issue. -/
def checkLicense (st : ServiceState) (now : Int) (url : String)
    (net : Except String LookupData) : CheckOutcome :=
  if st.config.enableTracking = false then
    ⟨emptyLicense url, st, 0⟩
  else
    match cacheHit st now url with
    | some license => ⟨license, st, 0⟩
    | none =>
      match net with
      | .ok data => ledgerLookupOk st now url data
      | .error msg => ledgerLookupErr st url msg

/-- `Map.set` on the batch result map (insertion order, replace on repeat). -/
def mapSet (m : List (String × LicenseInfo)) (url : String)
    (v : LicenseInfo) : List (String × LicenseInfo) :=
  if m.any (fun p => p.1 == url) then
    m.map (fun p => if p.1 == url then (url, v) else p)
  else m ++ [(url, v)]

/-- One settled `checkLicense` dispatch of the batch: run the check from the
current state and enter its (possibly degraded) result into the map.
`checkLicense` is total, so the `.catch` fallback entry of the code is dead
in the model. -/
def batchStep (now : Int) (net : String → Except String LookupData)
    (acc : List (String × LicenseInfo) × ServiceState × Nat) (url : String) :
    List (String × LicenseInfo) × ServiceState × Nat :=
  let out := checkLicense acc.2.1 now url (net url)
  (mapSet acc.1 url out.license, out.state, acc.2.2 + out.lookups)

/-- `checkLicenseBatch(urls)` (index.ts lines 1366-1389): one `checkLicense`
dispatch per URL, every settled result entered into the map; cooperative
scheduling is modelled by sequential composition.  Returns the result map,
the final state, and the total number of ledger lookups issued. -/
def checkLicenseBatch (st : ServiceState) (now : Int) (urls : List String)
    (net : String → Except String LookupData) :
    List (String × LicenseInfo) × ServiceState × Nat :=
  urls.foldl (batchStep now net) ([], st, 0)

/-- The key set of a batch result map. -/
def keys (m : List (String × LicenseInfo)) : List String :=
  m.map Prod.fst

/-- `estimateTokens(content)` (index.ts lines 1298-1312).  `encoder` is the
tiktoken encoder: `none` when initialization failed; `some f` with
`f content = none` when `encode` throws, `f content = some n` when it yields
`n` tokens.  Empty content is falsy and short-circuits to 0. -/
def estimateTokens (encoder : Option (String → Option Nat))
    (content : String) : Nat :=
  if content = "" then 0
  else
    match encoder with
    | some f =>
      match f content with
      | some n => n
      | none => (content.length + 3) / 4
    | none => (content.length + 3) / 4

/-- types.ts UsageLogEntry. -/
structure UsageLogEntry where
  url : String
  tokens : Nat
  license_version_id : Option Int := none
  license_sig : Option String := none
  stage : LicenseStage
  distribution : Distribution
  timestamp : String
deriving DecidableEq

/-- Result of one `logUsage` call: the boolean return, the state after the
call, the number of usage-log POSTs issued, and the posted entry if any. -/
structure LogOutcome where
  ok : Bool
  state : ServiceState
  posts : Nat
  entry : Option UsageLogEntry
deriving DecidableEq

/-- `logUsage(url, tokens, license, stage, distribution)` (index.ts lines
1317-1361).  `timestamp` is `new Date().toISOString()`; `net` is the outcome
of the single POST the call may issue. -/
def logUsage (st : ServiceState) (url : String) (tokens : Nat)
    (license : LicenseInfo) (stage : LicenseStage)
    (distribution : Distribution) (timestamp : String)
    (net : Except String Unit) : LogOutcome :=
  if !(st.config.enableTracking && st.config.hasApiKey) then
    ⟨false, st, 0, none⟩
  else if tokens = 0 then
    ⟨false, st, 0, none⟩
  else
    let usageLog : UsageLogEntry :=
      { url := url
        tokens := tokens
        license_version_id := license.license_version_id
        license_sig := license.license_sig
        stage := stage
        distribution := distribution
        timestamp := timestamp }
    match net with
    | .ok _ =>
      ⟨true,
       { st with sessionSummary :=
           { st.sessionSummary with
               total_tokens := st.sessionSummary.total_tokens + tokens } },
       1, some usageLog⟩
    | .error _ =>
      ⟨false,
       { st with sessionSummary :=
           { st.sessionSummary with
               errors := st.sessionSummary.errors + 1 } },
       1, some usageLog⟩

/-! ### Payment-aware fetcher (licensedFetchText, index.ts lines 1514-1666) -/

/-- A settled HTTP response as the fetcher observes it: `url` is
`Response.url` (the final URL after redirects, possibly empty), `headers`
the response headers, and `body` the outcome of `text()` (`none` models a
rejected `text()`, which the code turns into the empty string). -/
structure HttpResponse where
  url : String
  status : Nat
  headers : List (String × String)
  body : Option String
deriving DecidableEq

/-- ASCII lower-casing of one character (the header names and x402 tokens
the code compares are ASCII). -/
def lowerChar (c : Char) : Char :=
  if 65 ≤ c.toNat ∧ c.toNat ≤ 90 then Char.ofNat (c.toNat + 32) else c

/-- `s.toLowerCase()` on ASCII data, by character list so that concrete
instances evaluate. -/
def lowerStr (s : String) : String :=
  ⟨s.data.map lowerChar⟩

/-- `s.slice(0, n)`: the first `n` characters, by character list so that
concrete instances evaluate. -/
def strTake (s : String) (n : Nat) : String :=
  ⟨s.data.take n⟩

/-- `Headers.get(name)`: case-insensitive lookup, null when absent. -/
def getHeader (r : HttpResponse) (name : String) : Option String :=
  (r.headers.find? (fun p => lowerStr p.1 == lowerStr name)).map (·.2)

/-- `await r.text().catch(() => '')`. -/
def textOrEmpty (r : HttpResponse) : String :=
  r.body.getD ""

/-- JavaScript `a || b` on nullable strings (empty string is falsy). -/
def jsOrStr (a b : Option String) : Option String :=
  match a with
  | some s => if s = "" then b else some s
  | none => b

/-- `needle` occurs contiguously at the front of `hay`. -/
def seqStartsWith : List Char → List Char → Bool
  | _, [] => true
  | [], _ :: _ => false
  | c :: cs, d :: ds => c == d && seqStartsWith cs ds

/-- `needle` occurs contiguously somewhere in `hay`. -/
def seqContains : List Char → List Char → Bool
  | [], needle => needle.isEmpty
  | c :: cs, needle => seqStartsWith (c :: cs) needle || seqContains cs needle

/-- JavaScript `hay.includes(needle)`. -/
def strIncludes (hay needle : String) : Bool :=
  seqContains hay.toList needle.toList

/-- The x402 recognition test on the first response:
`(payment-required || '').toLowerCase().includes('x402') ||
 (x-payment-protocol || '').toLowerCase().includes('x402')`. -/
def isX402 (first : HttpResponse) : Bool :=
  strIncludes (lowerStr ((getHeader first "payment-required").getD "")) "x402" ||
  strIncludes (lowerStr ((getHeader first "x-payment-protocol").getD "")) "x402"

/-- The `x402` challenge block extracted from the 402 response's headers
(with the legacy `x-license-*` aliases). -/
structure X402Challenge where
  price : Option String
  payto : Option String
  stage : Option String
  distribution : Option String
  facilitator_url : Option String
deriving DecidableEq

/-- Challenge extraction from the first response's vendor headers. -/
def extractX402 (first : HttpResponse) : X402Challenge :=
  { price := jsOrStr (getHeader first "x402-price")
      (getHeader first "x-license-price")
    payto := jsOrStr (getHeader first "x402-payto")
      (getHeader first "x-license-payto")
    stage := getHeader first "x402-stage"
    distribution := jsOrStr (getHeader first "x402-distribution")
      (getHeader first "x-license-distribution")
    facilitator_url := getHeader first "x402-facilitator-url" }

/-- `parseStage` (index.ts lines 1514-1518). -/
def parseStage (value : Option String) (fallback : LicenseStage) :
    LicenseStage :=
  match value with
  | some "infer" => .infer
  | some "embed" => .embed
  | some "tune" => .tune
  | some "train" => .train
  | some "default" => fallback
  | _ => fallback

/-- `parseDistribution` (index.ts lines 1520-1523). -/
def parseDistribution (value : Option String) (fallback : Distribution) :
    Distribution :=
  match value with
  | some "private" => .privateDist
  | some "public" => .publicDist
  | _ => fallback

/-- types.ts LedgerAcquireResponse. -/
structure LedgerAcquireResponse where
  licensed_url : String
  license_version_id : Int
  license_sig : String
  expires_at : String
  cost : Int
  currency : String
  stage : LicenseStage
  distribution : Distribution
  estimated_tokens : Nat
  license_status : String
  rate_per_1k_tokens : Int
deriving DecidableEq

/-- The `acquire` block of a LicensedFetchResult. -/
structure AcquireInfo where
  licensed_url : String
  cost : Int
  currency : String
  expires_at : String
  license_version_id : Int
  license_sig : String
deriving DecidableEq

/-- types.ts LicensedFetchResult. -/
structure LicensedFetchResult where
  requested_url : String
  final_url : String
  status : Nat
  content_type : Option String := none
  content_text : Option String := none
  payment_attempted : Bool
  payment_required : Bool
  x402 : Option X402Challenge := none
  acquire : Option AcquireInfo := none
  error : Option String := none
deriving DecidableEq

/-- A `licensedFetchText` run: the terminal result plus how many content
fetches and acquisition attempts it performed. -/
structure FetchTrace where
  result : LicensedFetchResult
  fetches : Nat
  acquires : Nat
deriving DecidableEq

/-- `licensedFetchText(url, opts)` (index.ts lines 1535-1666).  The three
oracles are the first fetch, the acquisition call, and the second fetch, in
program order; an oracle is consumed only on the path that performs the
call.  `maxChars` is `opts.maxChars ?? 200_000`. -/
def licensedFetchText (url : String) (maxChars : Nat)
    (firstResult : Except String HttpResponse)
    (acquireResult : Except String LedgerAcquireResponse)
    (secondResult : Except String HttpResponse) : FetchTrace :=
  match firstResult with
  | .error e =>
    ⟨{ requested_url := url
       final_url := url
       status := 0
       payment_attempted := false
       payment_required := false
       error := some e }, 1, 0⟩
  | .ok first =>
    let firstUrl := if first.url = "" then url else first.url
    let contentType := getHeader first "content-type"
    if first.status ≠ 402 then
      ⟨{ requested_url := url
         final_url := firstUrl
         status := first.status
         content_type := contentType
         content_text := some (strTake (textOrEmpty first) maxChars)
         payment_attempted := false
         payment_required := false }, 1, 0⟩
    else
      let x402 := extractX402 first
      if !isX402 first then
        ⟨{ requested_url := url
           final_url := firstUrl
           status := first.status
           content_type := contentType
           content_text := some (strTake (textOrEmpty first) maxChars)
           payment_attempted := false
           payment_required := true
           x402 := some x402
           error := some "HTTP 402 received but did not advertise x402 in payment-required header" },
         1, 0⟩
      else
        match acquireResult with
        | .error e =>
          ⟨{ requested_url := url
             final_url := firstUrl
             status := first.status
             content_type := contentType
             content_text := some (strTake (textOrEmpty first) maxChars)
             payment_attempted := true
             payment_required := true
             x402 := some x402
             error := some e }, 1, 1⟩
        | .ok acquire =>
          match secondResult with
          | .error e =>
            ⟨{ requested_url := url
               final_url := firstUrl
               status := first.status
               content_type := contentType
               content_text := some (strTake (textOrEmpty first) maxChars)
               payment_attempted := true
               payment_required := true
               x402 := some x402
               error := some e }, 2, 1⟩
          | .ok second =>
            ⟨{ requested_url := url
               final_url :=
                 if second.url = "" then acquire.licensed_url else second.url
               status := second.status
               content_type := getHeader second "content-type"
               content_text := some (strTake (textOrEmpty second) maxChars)
               payment_attempted := true
               payment_required := true
               x402 := some x402
               acquire := some
                 { licensed_url := acquire.licensed_url
                   cost := acquire.cost
                   currency := acquire.currency
                   expires_at := acquire.expires_at
                   license_version_id := acquire.license_version_id
                   license_sig := acquire.license_sig } }, 2, 1⟩

/-! ### Concrete instances used by witnesses and counterexamples -/

/-- A configuration with tracking on, caching off, TTL 300 s, and a key. -/
def demoConfig : LicenseServiceConfig :=
  { apiUrl := "https://ledger.example"
    apiKey := some "sk-demo"
    licenseCheckTimeout := 5000
    licenseAcquireTimeout := 8000
    usageLogTimeout := 3000
    enableTracking := true
    enableCache := false
    cacheTTL := 300 }

/-- The all-zero session summary a fresh service starts with. -/
def demoSummary : LicenseTrackingSummary :=
  { total_urls := 0
    licensed_content := 0
    unlicensed_content := 0
    denied_content := 0
    total_tokens := 0
    tracking_enabled := true
    errors := 0 }

/-- A fresh service state with caching disabled. -/
def demoState : ServiceState :=
  { config := demoConfig, licenseCache := [], sessionSummary := demoSummary }

/-- A fresh service state with caching enabled. -/
def demoCacheState : ServiceState :=
  { demoState with config := { demoConfig with enableCache := true } }

/-- A ledger record that is not the generic 'ai-license' record. -/
def recPlain : LicenseRecord :=
  { license_type := some "search-license"
    opt_in_status := some "opt-out"
    rate_per_token := some 1
    wallet_id := some "wallet-plain"
    id := some 11 }

/-- The generic 'ai-license' record, opted in. -/
def recAi : LicenseRecord :=
  { license_type := some "ai-license"
    opt_in_status := some "opt-in"
    rate_per_token := some 2
    wallet_id := some "wallet-ai"
    id := some 12 }

/-- A first response: HTTP 402 advertising x402. -/
def cexFirst : HttpResponse :=
  { url := "https://site.example/article"
    status := 402
    headers := [("payment-required", "x402"), ("content-type", "text/html")]
    body := some "payment required" }

/-- A successful acquisition response. -/
def cexAcquire : LedgerAcquireResponse :=
  { licensed_url := "https://ledger.example/licensed/abc"
    license_version_id := 7
    license_sig := "sig-7"
    expires_at := "2026-01-01T00:00:00Z"
    cost := 2
    currency := "USD"
    stage := .infer
    distribution := .privateDist
    estimated_tokens := 1500
    license_status := "active"
    rate_per_1k_tokens := 1 }

/-- A second response whose final URL differs from the licensed URL (the
fetch followed a redirect). -/
def cexSecond : HttpResponse :=
  { url := "https://cdn.example/real-content"
    status := 200
    headers := [("content-type", "text/html")]
    body := some "hello" }

/-! ### Claim C9: estimateTokens -/

/-- The integer fallback `Math.ceil(content.length / 4)` as a rational
ceiling. -/
lemma ceil_div_four (n : ℕ) : ⌈(n : ℚ) / 4⌉₊ = (n + 3) / 4 := by
  rcases Nat.eq_zero_or_pos n with h | h
  · subst h
    norm_num
  · have hm : (n + 3) / 4 ≠ 0 := by omega
    rw [Nat.ceil_eq_iff hm]
    refine ⟨?_, ?_⟩
    · rw [lt_div_iff₀ (by norm_num : (0 : ℚ) < 4)]
      have hlt : ((n + 3) / 4 - 1) * 4 < n := by omega
      exact_mod_cast hlt
    · rw [div_le_iff₀ (by norm_num : (0 : ℚ) < 4)]
      have hle : n ≤ ((n + 3) / 4) * 4 := by omega
      exact_mod_cast hle

/-- Claim C9: `estimateTokens` returns 0 for empty content, always returns a
nonnegative integer, returns exactly ceil(length/4) whenever the encoder is
unavailable or its encoding fails, and is deterministic for fixed content
and fixed encoder availability (it is a function of exactly those two). -/
theorem C9_estimateTokens_spec (encoder : Option (String → Option Nat))
    (content : String) :
    estimateTokens encoder "" = 0 ∧
    0 ≤ estimateTokens encoder content ∧
    (encoder = none →
      estimateTokens encoder content = ⌈(content.length : ℚ) / 4⌉₊) ∧
    (∀ f, encoder = some f → f content = none →
      estimateTokens encoder content = ⌈(content.length : ℚ) / 4⌉₊) ∧
    (∀ encoder2 content2, encoder = encoder2 → content = content2 →
      estimateTokens encoder content = estimateTokens encoder2 content2) := by
  refine ⟨by simp [estimateTokens], Nat.zero_le _, ?_, ?_, ?_⟩
  · rintro rfl
    rw [ceil_div_four]
    by_cases hc : content = ""
    · simp [estimateTokens, hc]
    · simp [estimateTokens, hc]
  · rintro f rfl hfc
    rw [ceil_div_four]
    by_cases hc : content = ""
    · simp [estimateTokens, hc]
    · simp [estimateTokens, hc, hfc]
  · rintro encoder2 content2 rfl rfl
    rfl

/-- Witness for C9: with the encoder unavailable, ten characters estimate to
ceil(10/4) = 3 tokens. -/
theorem C9_witness : estimateTokens none "abcdefghij" = 3 := by
  have h := (C9_estimateTokens_spec none "abcdefghij").2.2.1 rfl
  rw [h, ceil_div_four]
  decide

/-! ### Claim C8: logUsage -/

/-- Claim C8: `logUsage` is a no-op returning false (no POST, state
unchanged) when tracking is disabled, the credential is missing, or tokens
is zero; otherwise it issues exactly one POST and, on success, returns true
adding exactly `tokens` to total_tokens, while on failure it returns false
incrementing only the error counter.  It never throws (it is total). -/
theorem C8_logUsage_spec (st : ServiceState) (url : String) (tokens : Nat)
    (license : LicenseInfo) (stage : LicenseStage)
    (distribution : Distribution) (timestamp : String)
    (net : Except String Unit) :
    (st.config.enableTracking = false ∨ st.config.hasApiKey = false ∨
        tokens = 0 →
      logUsage st url tokens license stage distribution timestamp net =
        ⟨false, st, 0, none⟩) ∧
    (st.config.enableTracking = true → st.config.hasApiKey = true →
      tokens ≠ 0 →
      (logUsage st url tokens license stage distribution timestamp net).posts
          = 1 ∧
      (net = .ok () →
        (logUsage st url tokens license stage distribution timestamp net).ok
            = true ∧
        (logUsage st url tokens license stage distribution timestamp
            net).state =
          { st with sessionSummary :=
              { st.sessionSummary with
                  total_tokens := st.sessionSummary.total_tokens + tokens } }) ∧
      (∀ msg, net = .error msg →
        (logUsage st url tokens license stage distribution timestamp net).ok
            = false ∧
        (logUsage st url tokens license stage distribution timestamp
            net).state =
          { st with sessionSummary :=
              { st.sessionSummary with
                  errors := st.sessionSummary.errors + 1 } })) := by
  constructor
  · rintro (h | h | h) <;> simp [logUsage, h]
  · intro het hak htk
    refine ⟨?_, ?_, ?_⟩
    · cases net <;> simp [logUsage, het, hak, htk]
    · rintro rfl
      simp [logUsage, het, hak, htk]
    · rintro msg rfl
      simp [logUsage, het, hak, htk]

/-- Witness for C8: a successful log of 5 tokens from the fresh demo state
returns true with one POST and total_tokens = 5. -/
theorem C8_witness :
    (logUsage demoState "https://w8.example" 5 (emptyLicense "u")
        .infer .privateDist "2026-01-01T00:00:00Z" (.ok ())).ok = true ∧
    (logUsage demoState "https://w8.example" 5 (emptyLicense "u")
        .infer .privateDist "2026-01-01T00:00:00Z"
        (.ok ())).state.sessionSummary.total_tokens = 5 ∧
    (logUsage demoState "https://w8.example" 5 (emptyLicense "u")
        .infer .privateDist "2026-01-01T00:00:00Z" (.ok ())).posts = 1 := by
  have h := C8_logUsage_spec demoState "https://w8.example" 5
    (emptyLicense "u") .infer .privateDist "2026-01-01T00:00:00Z" (.ok ())
  have h2 := h.2 rfl rfl (by decide)
  have h3 := h2.2.1 rfl
  exact ⟨h3.1, by rw [h3.2]; decide, h2.1⟩

/-! ### Claim C4: checkLicense on lookup failure -/

/-- Claim C4: when the ledger lookup fails (any thrown transport / timeout /
non-success error), `checkLicense` returns the degraded LicenseInfo with the
error message, increments only the errors counter, and leaves the cache (and
the rest of the state) untouched.  It does not throw: the model is a total
function. -/
theorem C4_checkLicense_failure (st : ServiceState) (now : Int)
    (url msg : String)
    (htrack : st.config.enableTracking = true)
    (hmiss : cacheHit st now url = none) :
    checkLicense st now url (.error msg) =
      ⟨{ emptyLicense url with error := some msg },
       { st with sessionSummary :=
           { st.sessionSummary with errors := st.sessionSummary.errors + 1 } },
       1⟩ := by
  simp [checkLicense, htrack, hmiss, ledgerLookupErr]

/-- Witness for C4: a timed-out lookup from the fresh demo state yields the
degraded result, one error counted, and an unchanged cache. -/
theorem C4_witness :
    checkLicense demoState 0 "https://w4.example" (.error "timeout of 5000ms exceeded") =
      ⟨{ emptyLicense "https://w4.example" with
           error := some "timeout of 5000ms exceeded" },
       { demoState with sessionSummary :=
           { demoState.sessionSummary with
               errors := demoState.sessionSummary.errors + 1 } },
       1⟩ :=
  C4_checkLicense_failure demoState 0 "https://w4.example"
    "timeout of 5000ms exceeded" rfl rfl

/-! ### Claim C10: second fetch throws after a successful acquisition -/

/-- Claim C10: when the first fetch returns an x402-recognized 402, the
acquisition succeeds, but the second fetch throws, `licensedFetchText`
returns the first response's status and truncated body with
payment_attempted and payment_required true, the error set, and no acquire
metadata, after two fetch attempts and one acquisition attempt. -/
theorem C10_second_fetch_throw (url : String) (maxChars : Nat)
    (first : HttpResponse) (acq : LedgerAcquireResponse) (e : String)
    (hstatus : first.status = 402) (hx : isX402 first = true) :
    licensedFetchText url maxChars (.ok first) (.ok acq) (.error e) =
      ⟨{ requested_url := url
         final_url := if first.url = "" then url else first.url
         status := first.status
         content_type := getHeader first "content-type"
         content_text := some (strTake (textOrEmpty first) maxChars)
         payment_attempted := true
         payment_required := true
         x402 := some (extractX402 first)
         acquire := none
         error := some e }, 2, 1⟩ := by
  simp [licensedFetchText, hstatus, hx]

/-- Witness for C10: the concrete x402 first response with a network error
on the second fetch keeps status 402 and the first body, with no acquire
metadata. -/
theorem C10_witness :
    licensedFetchText "https://site.example/article" 200000 (.ok cexFirst)
        (.ok cexAcquire) (.error "fetch failed") =
      ⟨{ requested_url := "https://site.example/article"
         final_url := "https://site.example/article"
         status := 402
         content_type := some "text/html"
         content_text := some "payment required"
         payment_attempted := true
         payment_required := true
         x402 := some (extractX402 cexFirst)
         acquire := none
         error := some "fetch failed" }, 2, 1⟩ := by
  have h := C10_second_fetch_throw "https://site.example/article" 200000
    cexFirst cexAcquire "fetch failed" rfl (by decide)
  rw [h]
  decide

/-! ### Claim C1: successful two-phase paid fetch -/

/-- Counterexample to C1 as stated: with a second fetch that lands on a
redirected URL, the terminal result's final_url is the second response's
URL, not the acquired licensed URL, even though the first fetch returned an
x402-recognized 402 and the acquisition succeeded. -/
theorem C1_counterexample :
    cexFirst.status = 402 ∧ isX402 cexFirst = true ∧
    (licensedFetchText "https://site.example/article" 200000 (.ok cexFirst)
        (.ok cexAcquire) (.ok cexSecond)).result.final_url ≠
      cexAcquire.licensed_url := by
  decide

/-- Claim C1 (amended): in the 402-x402-acquire-success scenario the run
performs exactly two content fetches and one acquisition, and the terminal
result has payment_attempted = true, the second response's status, content
type, and body truncated to the character budget regardless of the second
status code, the acquisition metadata attached, and final_url equal to the
second response's reported URL, falling back to the acquired licensed URL
when the second response reports none (so the two coincide exactly when the
second fetch is not redirected away from the licensed URL). -/
theorem C1_paid_fetch (url : String) (maxChars : Nat) (first : HttpResponse)
    (acq : LedgerAcquireResponse) (second : HttpResponse)
    (hstatus : first.status = 402) (hx : isX402 first = true) :
    licensedFetchText url maxChars (.ok first) (.ok acq) (.ok second) =
      ⟨{ requested_url := url
         final_url := if second.url = "" then acq.licensed_url else second.url
         status := second.status
         content_type := getHeader second "content-type"
         content_text := some (strTake (textOrEmpty second) maxChars)
         payment_attempted := true
         payment_required := true
         x402 := some (extractX402 first)
         acquire := some ⟨acq.licensed_url, acq.cost, acq.currency,
           acq.expires_at, acq.license_version_id, acq.license_sig⟩ }, 2, 1⟩ := by
  simp [licensedFetchText, hstatus, hx]

/-- Witness for C1 (amended): the concrete paid fetch returns the second
response's 200/"hello" with the acquisition metadata attached after exactly
two fetches. -/
theorem C1_witness :
    licensedFetchText "https://site.example/article" 200000 (.ok cexFirst)
        (.ok cexAcquire) (.ok cexSecond) =
      ⟨{ requested_url := "https://site.example/article"
         final_url := "https://cdn.example/real-content"
         status := 200
         content_type := some "text/html"
         content_text := some "hello"
         payment_attempted := true
         payment_required := true
         x402 := some (extractX402 cexFirst)
         acquire := some ⟨"https://ledger.example/licensed/abc", 2, "USD",
           "2026-01-01T00:00:00Z", 7, "sig-7"⟩ }, 2, 1⟩ := by
  have h := C1_paid_fetch "https://site.example/article" 200000 cexFirst
    cexAcquire cexSecond rfl (by decide)
  rw [h]
  decide

/-! ### Claim C2: session counters -/

/-- The counter update written as independent record updates on the original
summary. -/
lemma bumpSummary_eq (s : LicenseTrackingSummary) (l : LicenseInfo) :
    bumpSummary s l =
      if l.license_found then
        if l.action = .deny then
          { s with total_urls := s.total_urls + 1
                   denied_content := s.denied_content + 1 }
        else
          { s with total_urls := s.total_urls + 1
                   licensed_content := s.licensed_content + 1 }
      else
        { s with total_urls := s.total_urls + 1
                 unlicensed_content := s.unlicensed_content + 1 } := by
  cases hf : l.license_found
  · simp [bumpSummary, hf]
  · rcases ha : l.action <;> simp [bumpSummary, hf, ha]

/-- Counterexample to C2 as stated: a successful (non-erroring) checkLicense
call with tracking enabled whose ledger response holds zero records updates
no counter at all — total_urls stays 0 instead of incrementing. -/
theorem C2_counterexample :
    demoState.config.enableTracking = true ∧
    (checkLicense demoState 0 "https://a.example" (.ok (.arr []))).license.error
      = none ∧
    (checkLicense demoState 0 "https://a.example"
        (.ok (.arr []))).state.sessionSummary.total_urls = 0 := by
  decide

/-- Claim C2 (amended): every checkLicense call with tracking enabled that is
not served from the cache and whose ledger lookup succeeds with at least one
record increments total_urls by exactly one and exactly one of
licensed_content / unlicensed_content / denied_content, chosen by the
returned license_found/action, and changes no other counter; cache hits and
zero-record responses leave every counter unchanged. -/
theorem C2_counters (st : ServiceState) (now : Int) (url : String)
    (data : LookupData) (out : CheckOutcome)
    (htrack : st.config.enableTracking = true)
    (hout : checkLicense st now url (.ok data) = out) :
    (cacheHit st now url = none → data.toRecords ≠ [] →
      out.state.sessionSummary =
        if out.license.license_found then
          if out.license.action = .deny then
            { st.sessionSummary with
                total_urls := st.sessionSummary.total_urls + 1
                denied_content := st.sessionSummary.denied_content + 1 }
          else
            { st.sessionSummary with
                total_urls := st.sessionSummary.total_urls + 1
                licensed_content := st.sessionSummary.licensed_content + 1 }
        else
          { st.sessionSummary with
              total_urls := st.sessionSummary.total_urls + 1
              unlicensed_content :=
                st.sessionSummary.unlicensed_content + 1 }) ∧
    (∀ license, cacheHit st now url = some license → out.state = st) ∧
    (data.toRecords = [] → out.state = st) := by
  subst hout
  refine ⟨?_, ?_, ?_⟩
  · intro hmiss hrec
    rcases data with records | record
    · rcases records with _ | ⟨r, rs⟩
      · exact absurd rfl hrec
      · simp only [checkLicense, htrack, Bool.true_eq_false, if_neg,
          ite_false, hmiss]
        simp only [ledgerLookupOk, LookupData.toRecords]
        rw [bumpSummary_eq]
    · simp only [checkLicense, htrack, Bool.true_eq_false, if_neg,
        ite_false, hmiss]
      simp only [ledgerLookupOk, LookupData.toRecords]
      rw [bumpSummary_eq]
  · intro license hhit
    simp [checkLicense, htrack, hhit]
  · intro hnil
    cases hh : cacheHit st now url with
    | some license => simp [checkLicense, htrack, hh]
    | none =>
      rcases data with records | record
      · rcases records with _ | ⟨r, rs⟩
        · simp [checkLicense, htrack, hh, ledgerLookupOk,
            LookupData.toRecords]
        · simp [LookupData.toRecords] at hnil
      · simp [LookupData.toRecords] at hnil

/-- A caching state holding a live cache entry for the witness URL. -/
def demoHitState : ServiceState :=
  { demoCacheState with
      licenseCache :=
        [("https://w2.example",
          ⟨emptyLicense "https://w2.example", 500000⟩)] }

/-- Witness for C2 (amended): a one-record opt-in response from the fresh
demo state bumps total_urls and licensed_content to 1 and nothing else,
while the same call against a state with a live cache entry for the URL is a
cache hit and leaves the whole state — counters included — unchanged. -/
theorem C2_witness :
    (checkLicense demoState 0 "https://w2.example"
        (.ok (.arr [recAi]))).state.sessionSummary =
      { demoSummary with total_urls := 1, licensed_content := 1 } ∧
    (checkLicense demoHitState 0 "https://w2.example"
        (.ok (.arr [recAi]))).state = demoHitState := by
  constructor
  · have h := (C2_counters demoState 0 "https://w2.example" (.arr [recAi])
      (checkLicense demoState 0 "https://w2.example" (.ok (.arr [recAi])))
      rfl rfl).1 rfl (by decide)
    rw [h]
    decide
  · exact (C2_counters demoHitState 0 "https://w2.example" (.arr [recAi])
      (checkLicense demoHitState 0 "https://w2.example" (.ok (.arr [recAi])))
      rfl rfl).2.1 (emptyLicense "https://w2.example") (by decide)

/-! ### Claim C3: record selection and opt-in mapping -/

/-- Claim C3: on a successful ledger lookup, checkLicense returns the
degraded {found:false, action:unknown} value for zero records; otherwise it
selects a record that carries the generic 'ai-license' license type whenever
any record does, and the first record when none does, and maps the selected
record's opt-in field as opt-in→allow, opt-out→deny, anything else→unknown,
with license_found true exactly when that field is opt-in or opt-out. -/
theorem C3_selection (st : ServiceState) (now : Int) (url : String)
    (data : LookupData)
    (htrack : st.config.enableTracking = true)
    (hmiss : cacheHit st now url = none) :
    (data.toRecords = [] →
      (checkLicense st now url (.ok data)).license = emptyLicense url) ∧
    (∀ r rs, data.toRecords = r :: rs →
      ∃ sel ∈ data.toRecords,
        ((∃ x ∈ data.toRecords, x.license_type = some "ai-license") →
          sel.license_type = some "ai-license") ∧
        ((∀ x ∈ data.toRecords, x.license_type ≠ some "ai-license") →
          sel = r) ∧
        (checkLicense st now url (.ok data)).license.action =
          (if sel.opt_in_status = some "opt-in" then Action.allow
           else if sel.opt_in_status = some "opt-out" then Action.deny
           else Action.unknown) ∧
        ((checkLicense st now url (.ok data)).license.license_found = true ↔
          (sel.opt_in_status = some "opt-in" ∨
           sel.opt_in_status = some "opt-out"))) := by
  have hck : checkLicense st now url (.ok data) =
      ledgerLookupOk st now url data := by
    simp [checkLicense, htrack, hmiss]
  constructor
  · intro hnil
    rw [hck]
    rcases data with records | record
    · simp only [LookupData.toRecords] at hnil
      subst hnil
      simp [ledgerLookupOk, LookupData.toRecords]
    · simp [LookupData.toRecords] at hnil
  · intro r rs hcons
    rw [hck]
    have hlic : (ledgerLookupOk st now url data).license =
        { url := url
          license_found :=
            ((((r :: rs).find?
                  (fun l => l.license_type == some "ai-license")).getD
                r).opt_in_status == some "opt-in") ||
            ((((r :: rs).find?
                  (fun l => l.license_type == some "ai-license")).getD
                r).opt_in_status == some "opt-out")
          action :=
            if (((r :: rs).find?
                  (fun l => l.license_type == some "ai-license")).getD
                r).opt_in_status = some "opt-in" then .allow
            else if (((r :: rs).find?
                  (fun l => l.license_type == some "ai-license")).getD
                r).opt_in_status = some "opt-out" then .deny
            else .unknown
          price :=
            (((r :: rs).find?
                (fun l => l.license_type == some "ai-license")).getD
              r).rate_per_token
          payto :=
            (((r :: rs).find?
                (fun l => l.license_type == some "ai-license")).getD
              r).wallet_id
          license_version_id :=
            (((r :: rs).find?
                (fun l => l.license_type == some "ai-license")).getD r).id
          license_sig := none
          license_type :=
            (((r :: rs).find?
                (fun l => l.license_type == some "ai-license")).getD
              r).license_type } := by
      rcases data with records | record
      · simp only [LookupData.toRecords] at hcons
        subst hcons
        simp [ledgerLookupOk, LookupData.toRecords]
      · simp only [LookupData.toRecords] at hcons
        injection hcons with h1 h2
        subst h1
        subst h2
        simp [ledgerLookupOk, LookupData.toRecords]
    refine ⟨((r :: rs).find?
        (fun l => l.license_type == some "ai-license")).getD r, ?_, ?_, ?_, ?_, ?_⟩
    · rw [hcons]
      cases hfind : (r :: rs).find? (fun l => l.license_type == some "ai-license") with
      | none => simp [Option.getD]
      | some a =>
        simp only [Option.getD]
        exact List.mem_of_find?_eq_some hfind
    · rintro ⟨x, hx, hxt⟩
      cases hfind : (r :: rs).find? (fun l => l.license_type == some "ai-license") with
      | none =>
        rw [List.find?_eq_none] at hfind
        rw [hcons] at hx
        exact absurd (by simpa using hxt) (by simpa using hfind x hx)
      | some a =>
        have := List.find?_some hfind
        simpa using this
    · intro hnone
      cases hfind : (r :: rs).find? (fun l => l.license_type == some "ai-license") with
      | none => simp [Option.getD]
      | some a =>
        have hpa := List.find?_some hfind
        have hma := List.mem_of_find?_eq_some hfind
        rw [← hcons] at hma
        exact absurd (by simpa using hpa) (hnone a hma)
    · rw [hlic]
    · rw [hlic]
      simp [Bool.or_eq_true, beq_iff_eq]

/-- Witness for C3: with a non-generic opt-out record ahead of the generic
'ai-license' opt-in record, the check returns allow with found=true (the
generic record wins the selection). -/
theorem C3_witness :
    (checkLicense demoState 0 "https://w3.example"
        (.ok (.arr [recPlain, recAi]))).license.action = Action.allow := by
  obtain ⟨-, h2⟩ := C3_selection demoState 0 "https://w3.example"
    (.arr [recPlain, recAi]) rfl rfl
  obtain ⟨sel, hmem, hai, -, hact, -⟩ := h2 recPlain [recAi] rfl
  have hsel : sel.license_type = some "ai-license" := by
    refine hai ⟨recAi, ?_, by decide⟩
    simp [LookupData.toRecords]
  have hne : sel ≠ recPlain := by
    intro h
    rw [h] at hsel
    exact absurd hsel (by decide)
  have hsel2 : sel = recAi := by
    simp only [LookupData.toRecords, List.mem_cons, List.mem_singleton] at hmem
    rcases hmem with h | h | h
    · exact absurd h hne
    · exact h
    · exact absurd h (by simp)
  rw [hact, hsel2]
  decide

/-! ### Claim C5: the LicenseInfo invariant -/

/-- The spec's LicenseInfo invariant: the action is one of the three
admissible values and license_found = false forces action = unknown. -/
def LicenseInfoInv (l : LicenseInfo) : Prop :=
  (l.action = Action.allow ∨ l.action = Action.deny ∨
    l.action = Action.unknown) ∧
  (l.license_found = false → l.action = Action.unknown)

/-- Every cached license satisfies the invariant (true of every reachable
state: the cache starts empty and only checkLicense writes it). -/
def CacheInv (st : ServiceState) : Prop :=
  ∀ p ∈ st.licenseCache, LicenseInfoInv p.2.license

lemma action_cases (a : Action) :
    a = Action.allow ∨ a = Action.deny ∨ a = Action.unknown := by
  cases a <;> simp

lemma emptyLicense_inv (url : String) : LicenseInfoInv (emptyLicense url) :=
  ⟨Or.inr (Or.inr rfl), fun _ => rfl⟩

lemma cacheGet_inv {st : ServiceState} (hc : CacheInv st) {url : String}
    {e : CacheEntry} (h : cacheGet st.licenseCache url = some e) :
    LicenseInfoInv e.license := by
  unfold cacheGet at h
  cases hf : st.licenseCache.find? (fun p => p.1 == url) with
  | none => rw [hf] at h; exact absurd h (by simp)
  | some p =>
    rw [hf] at h
    have h2 : p.2 = e := by simpa using h
    have hm := hc p (List.mem_of_find?_eq_some hf)
    rw [h2] at hm
    exact hm

lemma cacheHit_inv {st : ServiceState} {now : Int} {url : String}
    {license : LicenseInfo} (hc : CacheInv st)
    (h : cacheHit st now url = some license) : LicenseInfoInv license := by
  unfold cacheHit at h
  split at h
  · split at h
    · rename_i cached heq
      split at h
      · injection h with h
        rw [← h]
        exact cacheGet_inv hc heq
      · exact absurd h (by simp)
    · exact absurd h (by simp)
  · exact absurd h (by simp)

lemma builtLicense_inv (url : String) (ld : LicenseRecord) :
    LicenseInfoInv
      { url := url
        license_found := (ld.opt_in_status == some "opt-in") ||
          (ld.opt_in_status == some "opt-out")
        action :=
          if ld.opt_in_status = some "opt-in" then .allow
          else if ld.opt_in_status = some "opt-out" then .deny
          else .unknown
        price := ld.rate_per_token
        payto := ld.wallet_id
        license_version_id := ld.id
        license_sig := none
        license_type := ld.license_type } := by
  refine ⟨action_cases _, ?_⟩
  intro hf
  simp only [Bool.or_eq_false_iff, beq_eq_false_iff_ne, ne_eq] at hf
  simp only [if_neg hf.1, if_neg hf.2]

lemma cacheSet_inv {st : ServiceState} (hc : CacheInv st) {url : String}
    {e : CacheEntry} (he : LicenseInfoInv e.license) :
    ∀ p ∈ cacheSet st.licenseCache url e, LicenseInfoInv p.2.license := by
  intro p hp
  unfold cacheSet at hp
  rcases List.mem_cons.1 hp with h | h
  · rw [h]; exact he
  · exact hc p (List.mem_of_mem_filter h)

/-- One checkLicense call returns an invariant-satisfying LicenseInfo and
preserves the cache invariant. -/
lemma checkLicense_inv (st : ServiceState) (now : Int) (url : String)
    (net : Except String LookupData) (hc : CacheInv st) :
    LicenseInfoInv (checkLicense st now url net).license ∧
    CacheInv (checkLicense st now url net).state := by
  unfold checkLicense
  by_cases ht : st.config.enableTracking = false
  · rw [if_pos ht]
    exact ⟨emptyLicense_inv url, hc⟩
  · rw [if_neg ht]
    cases hh : cacheHit st now url with
    | some license => exact ⟨cacheHit_inv hc hh, hc⟩
    | none =>
      cases net with
      | error msg =>
        refine ⟨⟨Or.inr (Or.inr rfl), fun _ => rfl⟩, ?_⟩
        exact hc
      | ok data =>
        rcases data with records | record
        · rcases records with _ | ⟨r, rs⟩
          · exact ⟨emptyLicense_inv url, hc⟩
          · simp only [ledgerLookupOk, LookupData.toRecords]
            refine ⟨builtLicense_inv url _, ?_⟩
            intro p hp
            by_cases hec : st.config.enableCache = true
            · rw [if_pos hec] at hp
              exact cacheSet_inv hc (builtLicense_inv url _) p hp
            · rw [if_neg hec] at hp
              exact hc p hp
        · simp only [ledgerLookupOk, LookupData.toRecords]
          refine ⟨builtLicense_inv url _, ?_⟩
          intro p hp
          by_cases hec : st.config.enableCache = true
          · rw [if_pos hec] at hp
            exact cacheSet_inv hc (builtLicense_inv url _) p hp
          · rw [if_neg hec] at hp
            exact hc p hp

lemma mem_mapSet {m : List (String × LicenseInfo)} {url : String}
    {v : LicenseInfo} {p : String × LicenseInfo} (hp : p ∈ mapSet m url v) :
    p ∈ m ∨ p = (url, v) := by
  unfold mapSet at hp
  by_cases h : (m.any fun q => q.1 == url) = true
  · rw [if_pos h] at hp
    rcases List.mem_map.1 hp with ⟨q, hq, hfq⟩
    by_cases hq1 : (q.1 == url) = true
    · rw [if_pos hq1] at hfq
      right
      exact hfq.symm
    · rw [if_neg hq1] at hfq
      left
      rw [← hfq]
      exact hq
  · rw [if_neg h] at hp
    rcases List.mem_append.1 hp with h1 | h1
    · left; exact h1
    · right; simpa using h1

lemma batch_inv_aux (now : Int) (net : String → Except String LookupData) :
    ∀ (urls : List String) (m : List (String × LicenseInfo))
      (st : ServiceState) (n : Nat),
      CacheInv st → (∀ p ∈ m, LicenseInfoInv p.2) →
      ∀ p ∈ (List.foldl (batchStep now net) (m, st, n) urls).1,
        LicenseInfoInv p.2 := by
  intro urls
  induction urls with
  | nil =>
    intro m st n _ hm
    simpa using hm
  | cons hd tl ih =>
    intro m st n hc hm
    simp only [List.foldl_cons, batchStep]
    apply ih
    · exact (checkLicense_inv st now hd (net hd) hc).2
    · intro p hp
      rcases mem_mapSet hp with h | h
      · exact hm p h
      · rw [h]
        exact (checkLicense_inv st now hd (net hd) hc).1

/-- Claim C5: every LicenseInfo returned by checkLicense, and every value in
a map returned by checkLicenseBatch, has an action among allow/deny/unknown
and satisfies license_found = false ⇒ action = unknown; moreover checkLicense
preserves the cache-wide invariant, so the property holds in every reachable
state (the cache starts empty). -/
theorem C5_license_invariant (st : ServiceState) (now : Int) (url : String)
    (net : Except String LookupData) (urls : List String)
    (netf : String → Except String LookupData)
    (hc : CacheInv st) :
    LicenseInfoInv (checkLicense st now url net).license ∧
    CacheInv (checkLicense st now url net).state ∧
    ∀ p ∈ (checkLicenseBatch st now urls netf).1, LicenseInfoInv p.2 := by
  refine ⟨(checkLicense_inv st now url net hc).1,
    (checkLicense_inv st now url net hc).2, ?_⟩
  unfold checkLicenseBatch
  exact batch_inv_aux now netf urls [] st 0 hc (by simp)

/-- Witness for C5: in the fresh demo state a zero-record lookup returns an
invariant-satisfying LicenseInfo. -/
theorem C5_witness :
    LicenseInfoInv
      (checkLicense demoState 0 "https://w5.example"
        (.ok (.arr []))).license :=
  (C5_license_invariant demoState 0 "https://w5.example" (.ok (.arr [])) []
    (fun _ => .ok (.arr []))
    (fun p hp => absurd hp (by simp [demoState]))).1

/-! ### Claim C7: batch key-set coverage -/

lemma any_key_iff (m : List (String × LicenseInfo)) (url : String) :
    (m.any fun q => q.1 == url) = true ↔ url ∈ keys m := by
  simp only [keys, List.any_eq_true, List.mem_map, beq_iff_eq]

lemma keys_mapSet (m : List (String × LicenseInfo)) (url : String)
    (v : LicenseInfo) :
    keys (mapSet m url v) =
      if url ∈ keys m then keys m else keys m ++ [url] := by
  unfold mapSet
  by_cases h : (m.any fun q => q.1 == url) = true
  · rw [if_pos h, if_pos ((any_key_iff m url).1 h)]
    unfold keys
    rw [List.map_map]
    apply List.map_congr_left
    intro p hp
    by_cases hq : (p.1 == url) = true
    · simp only [Function.comp_apply, if_pos hq]
      exact (beq_iff_eq.1 hq).symm
    · simp only [Function.comp_apply, if_neg hq]
  · rw [if_neg h, if_neg (fun hmem => h ((any_key_iff m url).2 hmem))]
    unfold keys
    rw [List.map_append]
    rfl

lemma mem_keys_mapSet (m : List (String × LicenseInfo)) (url u : String)
    (v : LicenseInfo) :
    u ∈ keys (mapSet m url v) ↔ u ∈ keys m ∨ u = url := by
  rw [keys_mapSet]
  by_cases h : url ∈ keys m
  · rw [if_pos h]
    constructor
    · exact Or.inl
    · rintro (h1 | rfl)
      · exact h1
      · exact h
  · rw [if_neg h]
    simp [List.mem_append]

lemma nodup_keys_mapSet (m : List (String × LicenseInfo)) (url : String)
    (v : LicenseInfo) (h : (keys m).Nodup) :
    (keys (mapSet m url v)).Nodup := by
  rw [keys_mapSet]
  by_cases hmem : url ∈ keys m
  · rw [if_pos hmem]
    exact h
  · rw [if_neg hmem]
    rw [List.nodup_append]
    refine ⟨h, List.nodup_singleton _, ?_⟩
    intro a ha hb
    rw [List.mem_singleton] at hb
    subst hb
    exact hmem ha

lemma batch_mem_aux (now : Int) (net : String → Except String LookupData) :
    ∀ (urls : List String) (m : List (String × LicenseInfo))
      (st : ServiceState) (n : Nat) (u : String),
      u ∈ keys (List.foldl (batchStep now net) (m, st, n) urls).1 ↔
        u ∈ keys m ∨ u ∈ urls := by
  intro urls
  induction urls with
  | nil =>
    intro m st n u
    simp
  | cons hd tl ih =>
    intro m st n u
    simp only [List.foldl_cons, batchStep]
    rw [ih, mem_keys_mapSet]
    simp only [List.mem_cons]
    tauto

lemma batch_nodup_aux (now : Int) (net : String → Except String LookupData) :
    ∀ (urls : List String) (m : List (String × LicenseInfo))
      (st : ServiceState) (n : Nat),
      (keys m).Nodup →
      (keys (List.foldl (batchStep now net) (m, st, n) urls).1).Nodup := by
  intro urls
  induction urls with
  | nil =>
    intro m st n h
    simpa using h
  | cons hd tl ih =>
    intro m st n h
    simp only [List.foldl_cons, batchStep]
    exact ih _ _ _ (nodup_keys_mapSet _ _ _ h)

/-- Claim C7: checkLicenseBatch dispatches a checkLicense per URL and waits
for all of them; since the key-set coverage below holds for every network
oracle — including ones that fail some or all URLs — one URL's failure never
prevents the others from contributing their (possibly degraded) result.  The
returned map's key set is exactly the set of distinct input URLs (no
duplicate keys), and the empty input yields the empty map, the unchanged
state, and zero ledger lookups. -/
theorem C7_batch_coverage (st : ServiceState) (now : Int)
    (urls : List String) (net : String → Except String LookupData) :
    checkLicenseBatch st now [] net = ([], st, 0) ∧
    (keys (checkLicenseBatch st now urls net).1).Nodup ∧
    ∀ u, u ∈ keys (checkLicenseBatch st now urls net).1 ↔ u ∈ urls := by
  refine ⟨rfl, ?_, ?_⟩
  · exact batch_nodup_aux now net urls [] st 0 (by simp [keys])
  · intro u
    rw [show checkLicenseBatch st now urls net =
      List.foldl (batchStep now net) ([], st, 0) urls from rfl]
    rw [batch_mem_aux now net urls [] st 0 u]
    simp [keys]

/-! ### Claim C6: cache round-trip -/

lemma cacheGet_cacheSet (cache : List (String × CacheEntry)) (url : String)
    (e : CacheEntry) : cacheGet (cacheSet cache url e) url = some e := by
  unfold cacheGet cacheSet
  rw [List.find?_cons_of_pos _ (by simp)]
  rfl

/-- A live cache entry read through the top-of-checkLicense consultation. -/
lemma cacheHit_of_get (st : ServiceState) (now : Int) (url : String)
    (e : CacheEntry) (hec : st.config.enableCache = true)
    (hget : cacheGet st.licenseCache url = some e) :
    cacheHit st now url = if e.expires > now then some e.license else none := by
  unfold cacheHit
  rw [if_pos hec, hget]

/-- Every ledger lookup, whatever its response, counts as one request. -/
lemma ledgerLookupOk_lookups (st : ServiceState) (now : Int) (url : String)
    (data : LookupData) : (ledgerLookupOk st now url data).lookups = 1 := by
  rcases data with records | record
  · rcases records with _ | ⟨r, rs⟩ <;>
      simp [ledgerLookupOk, LookupData.toRecords]
  · simp [ledgerLookupOk, LookupData.toRecords]

/-- The shape of a successful, non-cached check with at least one record:
some license is returned, the cache is written (when enabled) with expiry
`now + cacheTTL * 1000`, and the counters are bumped. -/
lemma checkLicense_success_shape (st : ServiceState) (now : Int)
    (url : String) (r : LicenseRecord) (rs : List LicenseRecord)
    (htrack : st.config.enableTracking = true)
    (hmiss : cacheHit st now url = none) :
    ∃ license : LicenseInfo,
      checkLicense st now url (.ok (.arr (r :: rs))) =
        ⟨license,
         { st with
             licenseCache :=
               if st.config.enableCache then
                 cacheSet st.licenseCache url
                   ⟨license, now + (st.config.cacheTTL : Int) * 1000⟩
               else st.licenseCache
             sessionSummary := bumpSummary st.sessionSummary license }, 1⟩ := by
  have hck : checkLicense st now url (.ok (.arr (r :: rs))) =
      ledgerLookupOk st now url (.arr (r :: rs)) := by
    simp [checkLicense, htrack, hmiss]
  refine ⟨(ledgerLookupOk st now url (.arr (r :: rs))).license, ?_⟩
  rw [hck]
  rfl

/-- Counterexample to C6 as stated: with caching enabled and TTL 300 s, a
successful (non-erroring) first check that returned zero records writes no
cache entry, so a second check for the same URL 10 s later issues a second
ledger lookup — two lookups, not one. -/
theorem C6_counterexample :
    demoCacheState.config.enableCache = true ∧
    demoCacheState.config.cacheTTL = 300 ∧
    (checkLicense demoCacheState 0 "https://a.example"
        (.ok (.arr []))).license.error = none ∧
    (checkLicense demoCacheState 0 "https://a.example"
        (.ok (.arr []))).lookups = 1 ∧
    (checkLicense
        (checkLicense demoCacheState 0 "https://a.example"
          (.ok (.arr []))).state
        10000 "https://a.example" (.ok (.arr []))).lookups = 1 := by
  decide

/-- Claim C6 (amended): with caching enabled and TTL 300 s, after a first
check that is not served from the cache and whose ledger lookup succeeds
with at least one record, the cache holds the returned LicenseInfo with
expiry now + 300000 ms; any second check for the same URL strictly within
the TTL issues no lookup and returns the cached LicenseInfo unchanged, while
a second check at or after the expiry issues one lookup; failed lookups and
successful zero-record lookups write nothing into the cache. -/
theorem C6_cache_roundtrip (st : ServiceState) (now t2 : Int) (url : String)
    (r : LicenseRecord) (rs : List LicenseRecord) (out : CheckOutcome)
    (htrack : st.config.enableTracking = true)
    (hcache : st.config.enableCache = true)
    (httl : st.config.cacheTTL = 300)
    (hmiss : cacheHit st now url = none)
    (hout : checkLicense st now url (.ok (.arr (r :: rs))) = out) :
    out.lookups = 1 ∧
    cacheGet out.state.licenseCache url = some ⟨out.license, now + 300000⟩ ∧
    (∀ net2, t2 < now + 300000 →
      checkLicense out.state t2 url net2 = ⟨out.license, out.state, 0⟩) ∧
    (∀ net2, now + 300000 ≤ t2 →
      (checkLicense out.state t2 url net2).lookups = 1) ∧
    (∀ msg, (checkLicense st now url (.error msg)).state.licenseCache =
      st.licenseCache) ∧
    (checkLicense st now url (.ok (.arr []))).state.licenseCache =
      st.licenseCache := by
  obtain ⟨license, hshape⟩ :=
    checkLicense_success_shape st now url r rs htrack hmiss
  subst hout
  rw [hshape]
  have hexp : now + (st.config.cacheTTL : Int) * 1000 = now + 300000 := by
    rw [httl]
    norm_num
  have hget : cacheGet
      (if st.config.enableCache then
        cacheSet st.licenseCache url
          ⟨license, now + (st.config.cacheTTL : Int) * 1000⟩
      else st.licenseCache) url =
      some ⟨license, now + 300000⟩ := by
    rw [if_pos hcache, cacheGet_cacheSet, hexp]
  have hhit0 := cacheHit_of_get
    { st with
        licenseCache :=
          if st.config.enableCache then
            cacheSet st.licenseCache url
              ⟨license, now + (st.config.cacheTTL : Int) * 1000⟩
          else st.licenseCache
        sessionSummary := bumpSummary st.sessionSummary license }
    t2 url ⟨license, now + 300000⟩ hcache hget
  simp only [gt_iff_lt] at hhit0
  refine ⟨rfl, hget, ?_, ?_, ?_, ?_⟩
  · intro net2 hlt
    rw [if_pos hlt] at hhit0
    simp [checkLicense, htrack, hhit0]
  · intro net2 hge
    rw [if_neg (not_lt.2 hge)] at hhit0
    cases net2 with
    | error msg => simp [checkLicense, htrack, hhit0, ledgerLookupErr]
    | ok data => simp [checkLicense, htrack, hhit0, ledgerLookupOk_lookups]
  · intro msg
    simp [checkLicense, htrack, hmiss, ledgerLookupErr]
  · simp [checkLicense, htrack, hmiss, ledgerLookupOk, LookupData.toRecords]

/-- Witness for C6 (amended): after a successful one-record first check at
t = 0 from the caching demo state, a second check at t = 100000 ms (within
the 300 s TTL) performs no lookup and returns the first check's LicenseInfo
with the state unchanged, even though its own network oracle would fail. -/
theorem C6_witness :
    checkLicense
        (checkLicense demoCacheState 0 "https://w6.example"
          (.ok (.arr [recAi]))).state
        100000 "https://w6.example" (.error "ledger down") =
      ⟨(checkLicense demoCacheState 0 "https://w6.example"
          (.ok (.arr [recAi]))).license,
       (checkLicense demoCacheState 0 "https://w6.example"
          (.ok (.arr [recAi]))).state, 0⟩ := by
  have h := C6_cache_roundtrip demoCacheState 0 100000 "https://w6.example"
    recAi [] (checkLicense demoCacheState 0 "https://w6.example"
      (.ok (.arr [recAi]))) rfl rfl rfl rfl rfl
  exact h.2.2.1 (.error "ledger down") (by norm_num)

end TavilyLicensed
